import Mathlib

/-
Verification of the cross-lingual zero-shot evaluation pipeline
(`cross-lingual-transfer.py`) against its natural-language specification.

The Python program is shallowly embedded below.  Pure helpers become Lean
functions; the mutable `CrossLingualZeroShot` instance becomes an explicit
`Instance` record threaded through the functions that read or update it;
Python exceptions become `Except String`; the external `transformers`
pipeline is abstracted as an oracle `String → Except String Classifier`
(model path ↦ loaded classifier or load error), and one loaded classifier
is an oracle `String → List String → Option String` (question, candidate
labels ↦ top-ranked label, `none` modelling a per-item exception inside
`_classify_batch`).
-/

set_option autoImplicit false

namespace CrossLingual

/-! ## String primitives used by the pseudo-label heuristic -/

/-- Does `hay` start with `needle` (character-wise)?  Helper for the
embedding of Python's substring test `needle in hay`. -/
def charsStartWith : List Char → List Char → Bool
  | [], _ => true
  | _ :: _, [] => false
  | a :: as, b :: bs => a == b && charsStartWith as bs

/-- Does the character list contain `needle` as a contiguous run?
Embedding of Python's substring test `needle in hay`. -/
def charsContain (needle : List Char) : List Char → Bool
  | [] => needle.isEmpty
  | b :: bs => charsStartWith needle (b :: bs) || charsContain needle bs

/-- Python `needle in hay` on strings (substring containment). -/
def strContainsSub (hay needle : String) : Bool :=
  charsContain needle.toList hay.toList

/-- Python `any(word in text for word in words)`. -/
def containsAnyOf (text : String) (words : List String) : Bool :=
  words.any (fun w => strContainsSub text w)

/-- Python `str.lower`, modelled as per-character ASCII lowercasing.  Every
keyword the heuristic tests is plain ASCII, so ASCII lowercasing of the
answer text decides the same containment tests. -/
def pyLower (s : String) : String :=
  String.mk (s.toList.map Char.toLower)

/-- Python `text.replace(c, '')` for a one-character pattern `c`: every
occurrence of the character is removed. -/
def pyStripChar (c : Char) (s : String) : String :=
  String.mk (s.toList.filter (fun x => x != c))

/-- Python `str.isdigit`: true iff the string is nonempty and every
character is a digit (modelled over the ASCII digits `0`–`9`). -/
def pyIsDigit (s : String) : Bool :=
  !s.toList.isEmpty && s.toList.all Char.isDigit

/-! ## Data model: QA records and evaluation results -/

/-- One element of a record's `answers` list: `{'text': ...}`. -/
structure Answer where
  text : String
  deriving DecidableEq, Repr

/-- A flattened QA record, the uniform shape produced by
`_process_xquad_data` / `create_sample_data`:
`{'context': ..., 'question': ..., 'answers': [...], 'id': ...}`. -/
structure QARecord where
  context : String
  question : String
  answers : List Answer
  id : String
  deriving DecidableEq, Repr

/-- Per-language evaluation result (`_evaluate_predictions` return value):
either the full metrics dictionary built at lines 67–76, or the degraded
dictionary built in the `except` branch at lines 83–87. -/
inductive EvalResult where
  | metrics (accuracy f1_macro f1_weighted precisionWeighted recallWeighted : Rat)
      (classification_report : List (String × Rat))
      (predictions ground_truth : List String)
  | degraded (err : String) (predictions ground_truth : List String)
  deriving Repr

/-- The `predictions` entry of an evaluation result (present in both the
full and the degraded form). -/
def EvalResult.predictionsOf : EvalResult → List String
  | .metrics _ _ _ _ _ _ p _ => p
  | .degraded _ p _ => p

/-- The `ground_truth` entry of an evaluation result (present in both the
full and the degraded form). -/
def EvalResult.groundTruthOf : EvalResult → List String
  | .metrics _ _ _ _ _ _ _ g => g
  | .degraded _ _ g => g

/-! ## Pseudo-label derivation (lines 50–64) -/

/-- Line 52: `item['answers'][0]['text'] if item['answers'] else "unknown"`
(an empty Python list is falsy). -/
def firstAnswerText (item : QARecord) : String :=
  match item.answers with
  | [] => "unknown"
  | a :: _ => a.text

def person_words : List String := ["who", "person", "people", "name"]

def location_words : List String := ["where", "city", "country", "place"]

def date_words : List String := ["when", "year", "month", "time"]

def organization_words : List String := ["company", "organization", "institution"]

/-- The ordered first-match-wins keyword heuristic of lines 53–64, as a
function of the answer text. -/
def deriveLabel (answer_text : String) : String :=
  if containsAnyOf (pyLower answer_text) person_words then "person"
  else if containsAnyOf (pyLower answer_text) location_words then "location"
  else if containsAnyOf (pyLower answer_text) date_words then "date"
  else if pyIsDigit (pyStripChar ',' (pyStripChar '.' answer_text)) then "number"
  else if containsAnyOf (pyLower answer_text) organization_words then "organization"
  else "description"

/-- The closed label set the specification asserts for the deriver. -/
def sixCategories : List String :=
  ["person", "location", "date", "number", "organization", "description"]

/-! ## `_evaluate_predictions` (lines 48–87) -/

/-- The `NameError` message raised at line 71: `precision_score` is used
there but the `sklearn.metrics` import at line 11 brings in only
`classification_report`, `accuracy_score` and `f1_score`. -/
def nameErrorMsg : String := "name \x27precision_score\x27 is not defined"

/-- The function `_evaluate_predictions`.  The `try` body first builds `ground_truth`
from the keyword heuristic (lines 50–64); the metrics dictionary at lines
67–76 then evaluates `precision_score(...)`, a name the line-11 import
never defines, so Python raises `NameError`; the `except` at line 81
returns the degraded dictionary of lines 83–87. -/
def evaluate_predictions (predictions : List String) (data : List QARecord) : EvalResult :=
  let _ground_truth := data.map (fun item => deriveLabel (firstAnswerText item))
  .degraded nameErrorMsg predictions (List.replicate predictions.length "unknown")

/-! ## Instance state, model loading, batch classification (lines 16–46, 660–673) -/

/-- One loaded zero-shot pipeline, abstracted to the only way the program
uses it: question text and candidate labels in, top-ranked label out
(`result['labels'][0]`); `none` models a per-item exception. -/
def Classifier : Type := String → List String → Option String

/-- The pipeline-loading capability, abstracted: model path in, loaded
classifier or load error out (`pipeline("zero-shot-classification", ...)`
at lines 37–41). -/
def PipelineOracle : Type := String → Except String Classifier

/-- The fields of `CrossLingualZeroShot.__init__` that the embedded
operations read (`device` and the logger are omitted: they only affect
logging and device placement). -/
structure Instance where
  model_name : String
  models_to_use : List String
  classifier : Option Classifier

/-- The dictionary `self.available_models` (lines 18–24). -/
def available_models : List (String × String) :=
  [("mDeBERTa", "MoritzLaurer/mDeBERTa-v3-base-mnli-xnli"),
   ("Multilingual_BERT", "emrecan/bert-base-multilingual-cased-snli_tr"),
   ("XLM-Roberta", "xlm-roberta-large"),
   ("Info-XLM", "microsoft/infoxlm-large"),
   ("BART", "facebook/bart-large-mnli")]

/-- The default of the `model_name` constructor argument (line 16). -/
def default_model_name : String := "MoritzLaurer/mDeBERTa-v3-base-mnli-xnli"

/-- The list `self.supported_languages` (lines 28–30). -/
def supported_languages : List String := ["en", "es", "de", "ar", "ru", "zh", "tr"]

/-- The constructor `CrossLingualZeroShot.__init__`: `self.models_to_use = models or
list(self.available_models.values())` — Python `or` also replaces an
empty (falsy) list by the default; `self.classifier = None`. -/
def mkInstance (model_name : String) (models : Option (List String)) : Instance :=
  { model_name
    models_to_use :=
      match models with
      | none => available_models.map Prod.snd
      | some [] => available_models.map Prod.snd
      | some l => l
    classifier := none }

/-- The `TypeError` message of line 43: `len(self.classifier)` is called on
the last assigned pipeline object, and `transformers` pipelines define no
`__len__` (with an empty `models_to_use` the attribute is still `None`). -/
def lenTypeError (c : Option Classifier) : String :=
  match c with
  | none => "object of type \x27NoneType\x27 has no len()"
  | some _ => "object of type \x27Pipeline\x27 has no len()"

/-- The method `load_model` (lines 33–46), with the mutation of `self.classifier`
made explicit.  The loop assigns `self.classifier = pipeline(model_path)`
for each path in turn; a pipeline load error aborts the loop (keeping the
last successful assignment) and is re-raised by the `except` at line 46.
If every load succeeds, the log call at line 43 evaluates
`len(self.classifier)`, which raises `TypeError` (pipelines have no
`__len__`); the `except` re-raises it.  The function therefore always
ends in a raise, returning the updated `classifier` field and the error. -/
def load_model (pl : PipelineOracle) : Option Classifier → List String → Option Classifier × String
  | c, [] => (c, lenTypeError c)
  | c, m :: ms =>
    match pl m with
    | .ok c2 => load_model pl (some c2) ms
    | .error e => (c, e)

/-- The fixed label list of lines 639–640. -/
def labels : List String :=
  ["person", "location", "organization", "date", "number", "description", "sports",
   "politics", "technology", "science", "health", "history", "geography", "arts",
   "entertainment", "culture", "society", "economy", "business"]

/-- The method `_classify_batch` (lines 660–673): one prediction per item — the
top-ranked label, or `labels[0]` when the per-item call raises. -/
def classify_batch (clf : Classifier) (data : List QARecord) (ls : List String) : List String :=
  data.map fun item =>
    match clf item.question ls with
    | some l => l
    | none => ls.headI

/-! ## `perform_cross_lingual_classification` (lines 622–658) and `main` (lines 675–717) -/

/-- The `ValueError` message of line 636; `ks` is `list(data.keys())`,
rendered the way Python prints a list of strings. -/
def sourceMissingMsg (source_lang : String) (ks : List String) : String :=
  "Source language \x27" ++ source_lang ++
    "\x27 not found in data. Available languages: [" ++
    String.intercalate ", " (ks.map (fun k => "\x27" ++ k ++ "\x27")) ++ "]"

/-- Lines 644–646 and 652–654 (identical treatment of the source and of
one target language): slice the first `sample_size` records, classify the
batch, evaluate the predictions against the sliced records. -/
def process_language (clf : Classifier) (records : List QARecord) (sample_size : Nat) :
    EvalResult :=
  let data := records.take sample_size
  evaluate_predictions (classify_batch clf data labels) data

/-- The body of `perform_cross_lingual_classification` after the classifier
is available: the source-language check (lines 635–636), then the source
entry followed by one entry per target language present in the data
(absent targets are skipped, lines 649–656). -/
def perform_body (clf : Classifier) (data_by_language : List (String × List QARecord))
    (source_lang : String) (target_langs : List String) (sample_size : Nat) :
    Except String (List (String × EvalResult)) :=
  match data_by_language.lookup source_lang with
  | none => .error (sourceMissingMsg source_lang (data_by_language.map Prod.fst))
  | some source_records =>
    .ok ((source_lang, process_language clf source_records sample_size) ::
      target_langs.filterMap fun tl =>
        match data_by_language.lookup tl with
        | some recs => some (tl, process_language clf recs sample_size)
        | none => none)

/-- The method `perform_cross_lingual_classification` (lines 622–658).  Line 629:
`if not self.classifier: self.load_model()` runs before anything touches
the data; since `load_model` always ends in a raise, a missing classifier
makes the call raise (with `self.classifier` updated to whatever the load
loop assigned).  With a classifier present the body runs. -/
def perform_cross_lingual_classification (pl : PipelineOracle) (inst : Instance)
    (data_by_language : List (String × List QARecord)) (source_lang : String)
    (target_langs : List String) (sample_size : Nat) :
    Instance × Except String (List (String × EvalResult)) :=
  match inst.classifier with
  | some clf =>
    (inst, perform_body clf data_by_language source_lang target_langs sample_size)
  | none =>
    let r := load_model pl none inst.models_to_use
    ({ inst with classifier := r.1 }, .error r.2)

/-- The target languages wired into `main` (line 679). -/
def main_target_langs : List String := ["es", "de", "ru", "ar", "zh", "tr"]

/-- What one run of `main` did, observably: whether the `except` branch at
lines 706–717 ran (printing the error and substituting
`create_sample_data()`), and the final outcome (`.error` = an exception
left `main` uncaught; the retry inside the `except` has no handler). -/
structure MainResult where
  usedSampleFallback : Bool
  outcome : Except String (List (String × EvalResult))

/-! ## The dataset loader (lines 89–127, 599–620)

`json.load` produces arbitrary JSON values, and `_process_xquad_data`
accesses them dynamically, so this layer works over a JSON value type and
records whose four fields hold arbitrary JSON values. -/

/-- A parsed JSON value. -/
inductive Json where
  | null
  | bool (b : Bool)
  | num (n : Int)
  | str (s : String)
  | arr (elems : List Json)
  | obj (fields : List (String × Json))

/-- One flattened record as built by the dictionary literal at lines
607–612: the four values are whatever the parsed JSON held there. -/
structure PyRecord where
  context : Json
  question : Json
  answers : Json
  id : Json

/-- One value of the `data_by_language` dictionary built by the loader:
either a list of flattened records, or (line 615, unexpected top-level
shape) the raw parsed structure passed through unchanged. -/
inductive LoadVal where
  | recs (rs : List PyRecord)
  | raw (j : Json)

/-- Python `key in x` for a string key: key membership for a dict, element
membership for a list, substring test for a string, `TypeError` for
non-container values. -/
def pyContains (j : Json) (k : String) : Except String Bool :=
  match j with
  | .obj fields => .ok (fields.any (fun f => f.1 == k))
  | .arr elems => .ok (elems.any (fun e => match e with | .str t => t == k | _ => false))
  | .str s => .ok (strContainsSub s k)
  | _ => .error "TypeError: argument is not iterable"

/-- Python `x[k]` for a string key `k`: dict lookup (`KeyError` when the
key is absent), `TypeError` for every other value. -/
def pyGetItem (j : Json) (k : String) : Except String Json :=
  match j with
  | .obj fields =>
    match fields.lookup k with
    | some v => .ok v
    | none => .error ("KeyError: " ++ k)
  | _ => .error "TypeError: value is not subscriptable with a string"

/-- Python `for x in j`: the elements of a list, the keys of a dict, the
one-character strings of a string, `TypeError` otherwise. -/
def pyIter (j : Json) : Except String (List Json) :=
  match j with
  | .arr elems => .ok elems
  | .obj fields => .ok (fields.map (fun f => Json.str f.1))
  | .str s => .ok (s.toList.map (fun c => Json.str (String.singleton c)))
  | _ => .error "TypeError: value is not iterable"

/-- The inner loop of `_process_xquad_data` (lines 606–612): one flattened
record per `qa`, in order, sharing the paragraph's `context`. -/
def processQas (context : Json) : List Json → Except String (List PyRecord)
  | [] => .ok []
  | qa :: rest => do
    let q ← pyGetItem qa "question"
    let a ← pyGetItem qa "answers"
    let i ← pyGetItem qa "id"
    let rs ← processQas context rest
    .ok ({ context := context, question := q, answers := a, id := i } :: rs)

/-- The middle loop (lines 604–612): per paragraph, read `context` and
iterate `qas`. -/
def processParagraphs : List Json → Except String (List PyRecord)
  | [] => .ok []
  | para :: rest => do
    let context ← pyGetItem para "context"
    let qasJ ← pyGetItem para "qas"
    let qas ← pyIter qasJ
    let here ← processQas context qas
    let there ← processParagraphs rest
    .ok (here ++ there)

/-- The outer loop (lines 603–612): per article, iterate `paragraphs`. -/
def processArticles : List Json → Except String (List PyRecord)
  | [] => .ok []
  | article :: rest => do
    let parasJ ← pyGetItem article "paragraphs"
    let paras ← pyIter parasJ
    let here ← processParagraphs paras
    let there ← processArticles rest
    .ok (here ++ there)

/-- The method `_process_xquad_data` (lines 599–620): when `'data' in raw_data`,
flatten the nested structure; otherwise pass the raw structure through
unchanged (line 615); any exception along the way is caught at line 616
and an empty record list is returned. -/
def process_xquad_data (raw : Json) : LoadVal :=
  match (do
      let hasData ← pyContains raw "data"
      if hasData then do
        let dataJ ← pyGetItem raw "data"
        let articles ← pyIter dataJ
        let rs ← processArticles articles
        pure (LoadVal.recs rs)
      else
        pure (LoadVal.raw raw) : Except String LoadVal) with
  | .ok v => v
  | .error _ => .recs []

/-- What the filesystem yields for one language's `xquad-{lang}.json`
(lines 100–112): no file, a file whose `open`/`json.load` raises, or a
successfully parsed JSON value. -/
inductive FileOutcome where
  | missing
  | badJson (e : String)
  | parsed (j : Json)

/-- The per-language loop of `load_xquad_multilingual` (lines 98–121): a
missing file is skipped with a warning, an exception from reading/parsing
is caught and the loop continues (line 121), a parsed file is flattened
and stored under the language key. -/
def loadLoop (file : String → FileOutcome) : List String → List (String × LoadVal)
  | [] => []
  | lang :: rest =>
    match file lang with
    | .parsed j => (lang, process_xquad_data j) :: loadLoop file rest
    | _ => loadLoop file rest

/-! ## `create_sample_data` (lines 129–597): the built-in fixture dataset -/

/-- The `'en'` fixture records (lines 131–198). -/
def sample_en : List QARecord :=
  [{ context := "The quick brown fox jumps over the lazy dog.",
     question := "What animal jumps over the dog?",
     answers := [⟨"fox"⟩], id := "en_1" },
   { context := "Neil Armstrong was the first person to walk on the moon in 1969.",
     question := "Who was the first person to walk on the moon?",
     answers := [⟨"Neil Armstrong"⟩], id := "en_2" },
   { context := "The Nile is the longest river in the world, flowing through 11 countries in Africa.",
     question := "What is the longest river in the world?",
     answers := [⟨"The Nile"⟩], id := "en_3" },
   { context := "Mount Everest is the tallest mountain in the world, standing at 8,848 meters.",
     question := "What is the tallest mountain in the world?",
     answers := [⟨"Mount Everest"⟩], id := "en_4" },
   { context := "The Great Wall of China is one of the most famous landmarks in the world.",
     question := "What is one of the most famous landmarks in China?",
     answers := [⟨"The Great Wall of China"⟩], id := "en_5" },
   { context := "The capital city of France is Paris, known for its art, fashion, and culture.",
     question := "What is the capital city of France?",
     answers := [⟨"Paris"⟩], id := "en_6" },
   { context := "Shakespeare wrote the famous play Romeo and Juliet in the late 16th century.",
     question := "Who wrote Romeo and Juliet?",
     answers := [⟨"Shakespeare"⟩], id := "en_7" },
   { context := "The Pacific Ocean is the largest and deepest ocean on Earth.",
     question := "What is the largest ocean on Earth?",
     answers := [⟨"The Pacific Ocean"⟩], id := "en_8" },
   { context := "Thomas Edison invented the electric light bulb in 1879.",
     question := "Who invented the electric light bulb?",
     answers := [⟨"Thomas Edison"⟩], id := "en_9" },
   { context := "The Mona Lisa, painted by Leonardo da Vinci, is one of the most famous artworks in history.",
     question := "Who painted the Mona Lisa?",
     answers := [⟨"Leonardo da Vinci"⟩], id := "en_10" },
   { context := "The Sahara Desert is the largest hot desert in the world, located in Africa.",
     question := "What is the largest hot desert in the world?",
     answers := [⟨"The Sahara Desert"⟩], id := "en_11" }]

/-- The `'es'` fixture records (lines 199–272). -/
def sample_es : List QARecord :=
  [{ context := "El rápido zorro marrón salta sobre el perro perezoso.",
     question := "¿Qué animal salta sobre el perro?",
     answers := [⟨"zorro"⟩], id := "es_1" },
   { context := "Cristóbal Colón zarpó en 1492 desde España y llegó al continente americano.",
     question := "¿En qué año llegó Cristóbal Colón a América?",
     answers := [⟨"1492"⟩], id := "es_2" },
   { context := "La Torre Eiffel, uno de los monumentos más famosos del mundo, está ubicada en París.",
     question := "¿Dónde está ubicada la Torre Eiffel?",
     answers := [⟨"París"⟩], id := "es_3" },
   { context := "El Amazonas es el río más largo del mundo y atraviesa varios países de América del Sur.",
     question := "¿Cuál es el río más largo del mundo?",
     answers := [⟨"El Amazonas"⟩], id := "es_4" },
   { context := "La capital de Argentina es Buenos Aires, conocida por su rica cultura y tango.",
     question := "¿Cuál es la capital de Argentina?",
     answers := [⟨"Buenos Aires"⟩], id := "es_5" },
   { context := "Miguel de Cervantes escribió Don Quijote, una de las obras más importantes de la literatura española.",
     question := "¿Quién escribió Don Quijote?",
     answers := [⟨"Miguel de Cervantes"⟩], id := "es_6" },
   { context := "El Everest, con una altura de 8,848 metros, es la montaña más alta del mundo.",
     question := "¿Cuál es la montaña más alta del mundo?",
     answers := [⟨"El Everest"⟩], id := "es_7" },
   { context := "El Real Madrid es uno de los equipos de fútbol más exitosos de Europa.",
     question := "¿Qué equipo de fútbol es uno de los más exitosos de Europa?",
     answers := [⟨"Real Madrid"⟩], id := "es_8" },
   { context := "La Revolución Francesa comenzó en 1789 y marcó un cambio significativo en la historia de Europa.",
     question := "¿En qué año comenzó la Revolución Francesa?",
     answers := [⟨"1789"⟩], id := "es_9" },
   { context := "Pablo Picasso fue un pintor y escultor español conocido por cofundar el movimiento cubista.",
     question := "¿Quién cofundó el movimiento cubista?",
     answers := [⟨"Pablo Picasso"⟩], id := "es_10" },
   { context := "La Ópera de Sídney es uno de los edificios más emblemáticos de Australia.",
     question := "¿Cuál es uno de los edificios más emblemáticos de Australia?",
     answers := [⟨"La Ópera de Sídney"⟩], id := "es_11" },
   { context := "La Alhambra es un palacio histórico situado en Granada, España.",
     question := "¿Dónde se encuentra la Alhambra?",
     answers := [⟨"en Granada, España"⟩], id := "es_12" }]

/-- The `'ru'` fixture records (lines 273–340). -/
def sample_ru : List QARecord :=
  [{ context := "Москва — столица России и крупнейший город страны.",
     question := "Какой город является столицей России?",
     answers := [⟨"Москва"⟩], id := "ru_1" },
   { context := "Лев Толстой — известный русский писатель, автор «Войны и мира».",
     question := "Кто написал роман «Война и мир»?",
     answers := [⟨"Лев Толстой"⟩], id := "ru_2" },
   { context := "Байкал — самое глубокое озеро в мире и расположено в России.",
     question := "Как называется самое глубокое озеро в мире?",
     answers := [⟨"Байкал"⟩], id := "ru_3" },
   { context := "Юрий Гагарин стал первым человеком, полетевшим в космос в 1961 году.",
     question := "Кто был первым человеком в космосе?",
     answers := [⟨"Юрий Гагарин"⟩], id := "ru_4" },
   { context := "Санкт-Петербург — второй по величине город в России, известный своими дворцами и каналами.",
     question := "Какой город в России известен своими дворцами и каналами?",
     answers := [⟨"Санкт-Петербург"⟩], id := "ru_5" },
   { context := "Красная площадь — это главная площадь Москвы и всей России.",
     question := "Как называется главная площадь Москвы?",
     answers := [⟨"Красная площадь"⟩], id := "ru_6" },
   { context := "Фёдор Достоевский написал роман «Преступление и наказание», который считается шедевром мировой литературы.",
     question := "Кто написал роман «Преступление и наказание»?",
     answers := [⟨"Фёдор Достоевский"⟩], id := "ru_7" },
   { context := "Транссибирская магистраль — самая длинная железная дорога в мире, соединяющая Москву и Владивосток.",
     question := "Как называется самая длинная железная дорога в мире?",
     answers := [⟨"Транссибирская магистраль"⟩], id := "ru_8" },
   { context := "Эрмитаж в Санкт-Петербурге — один из крупнейших и старейших музеев мира.",
     question := "Какой музей в Санкт-Петербурге является одним из крупнейших в мире?",
     answers := [⟨"Эрмитаж"⟩], id := "ru_9" },
   { context := "Кремль в Москве — это резиденция президента России и символ страны.",
     question := "Что является резиденцией президента России?",
     answers := [⟨"Кремль"⟩], id := "ru_10" },
   { context := "Московский Кремль расположен в самом сердце Москвы.",
     question := "Где расположен Московский Кремль?",
     answers := [⟨"в самом сердце Москвы"⟩], id := "ru_11" }]

/-- The `'ar'` fixture records (lines 341–408). -/
def sample_ar : List QARecord :=
  [{ context := "الهرم الأكبر في الجيزة هو أحد عجائب الدنيا السبع القديمة.",
     question := "ما هو أحد عجائب الدنيا السبع القديمة في مصر؟",
     answers := [⟨"الهرم الأكبر"⟩], id := "ar_1" },
   { context := "البتراء في الأردن مشهورة بمعمارها المنحوت في الصخور.",
     question := "ما هي المدينة الأردنية المشهورة بمعمارها المنحوت في الصخور؟",
     answers := [⟨"البتراء"⟩], id := "ar_2" },
   { context := "قناة السويس تربط البحر الأحمر بالبحر الأبيض المتوسط.",
     question := "ما هي القناة التي تربط البحر الأحمر بالبحر الأبيض المتوسط؟",
     answers := [⟨"قناة السويس"⟩], id := "ar_3" },
   { context := "ابن الهيثم كان عالماً مسلماً بارزاً في مجالات البصريات والرياضيات.",
     question := "من هو العالم المسلم البارز في مجال البصريات؟",
     answers := [⟨"ابن الهيثم"⟩], id := "ar_4" },
   { context := "برج خليفة في دبي هو أطول مبنى في العالم.",
     question := "ما هو أطول مبنى في العالم؟",
     answers := [⟨"برج خليفة"⟩], id := "ar_5" },
   { context := "صلاح الدين الأيوبي كان قائداً عسكرياً إسلامياً شهيراً.",
     question := "من هو القائد الإسلامي الشهير الذي حرر القدس؟",
     answers := [⟨"صلاح الدين الأيوبي"⟩], id := "ar_6" },
   { context := "نهر النيل هو أطول نهر في العالم ويمر بعدة دول أفريقية.",
     question := "ما هو أطول نهر في العالم؟",
     answers := [⟨"نهر النيل"⟩], id := "ar_7" },
   { context := "الكعبة في مكة المكرمة هي قبلة المسلمين.",
     question := "ما هي القبلة التي يتجه إليها المسلمون في صلاتهم؟",
     answers := [⟨"الكعبة"⟩], id := "ar_8" },
   { context := "اللغة العربية هي واحدة من أكثر اللغات تحدثاً في العالم.",
     question := "ما هي اللغة التي تُعتبر من أكثر اللغات تحدثاً في العالم؟",
     answers := [⟨"اللغة العربية"⟩], id := "ar_9" },
   { context := "الأهرامات في مصر تعد من أهم معالم السياحة في العالم.",
     question := "ما هي المعالم التي تعد من أهم معالم السياحة في مصر؟",
     answers := [⟨"الأهرامات"⟩], id := "ar_10" },
   { context := "تقع الأهرامات في مصر.",
     question := "أين تقع الأهرامات؟",
     answers := [⟨"في مصر"⟩], id := "ar_11" }]

/-- The `'de'` fixture records (lines 409–470; the first has id `de_2`). -/
def sample_de : List QARecord :=
  [{ context := "Albert Einstein entwickelte die allgemeine Relativitätstheorie, die das Verständnis von Raum, Zeit und Gravitation revolutionierte.",
     question := "Wer entwickelte die allgemeine Relativitätstheorie?",
     answers := [⟨"Albert Einstein"⟩], id := "de_2" },
   { context := "Die Berliner Mauer fiel am 9. November 1989 und markierte das Ende der Teilung Deutschlands.",
     question := "Wann fiel die Berliner Mauer?",
     answers := [⟨"9. November 1989"⟩], id := "de_3" },
   { context := "Die Donau ist der zweitlängste Fluss Europas und fließt durch zehn Länder.",
     question := "Wie viele Länder durchfließt die Donau?",
     answers := [⟨"zehn"⟩], id := "de_4" },
   { context := "Die Bundeskanzlerin von Deutschland im Jahr 2021 war Angela Merkel.",
     question := "Wer war die Bundeskanzlerin Deutschlands im Jahr 2021?",
     answers := [⟨"Angela Merkel"⟩], id := "de_5" },
   { context := "Das Brandenburger Tor ist eines der bekanntesten Wahrzeichen Berlins.",
     question := "Was ist eines der bekanntesten Wahrzeichen Berlins?",
     answers := [⟨"Das Brandenburger Tor"⟩], id := "de_6" },
   { context := "Johann Wolfgang von Goethe schrieb Faust, eines der bedeutendsten Werke der deutschen Literatur.",
     question := "Wer schrieb Faust?",
     answers := [⟨"Johann Wolfgang von Goethe"⟩], id := "de_7" },
   { context := "Der Schwarzwald ist eine Region im Südwesten Deutschlands, bekannt für seine dichten Wälder und Kuckucksuhren.",
     question := "Wofür ist der Schwarzwald bekannt?",
     answers := [⟨"dichte Wälder und Kuckucksuhren"⟩], id := "de_8" },
   { context := "Die deutsche Wiedervereinigung fand am 3. Oktober 1990 statt.",
     question := "Wann fand die deutsche Wiedervereinigung statt?",
     answers := [⟨"3. Oktober 1990"⟩], id := "de_9" },
   { context := "Die Zugspitze ist der höchste Berg Deutschlands mit einer Höhe von 2.962 Metern.",
     question := "Wie hoch ist die Zugspitze?",
     answers := [⟨"2.962 Meter"⟩], id := "de_10" },
   { context := "Die erste Buchdruckmaschine wurde von Johannes Gutenberg im 15. Jahrhundert entwickelt.",
     question := "Wer entwickelte die erste Buchdruckmaschine?",
     answers := [⟨"Johannes Gutenberg"⟩], id := "de_11" }]

/-- The `'zh'` fixture records (lines 471–532). -/
def sample_zh : List QARecord :=
  [{ context := "长城是中国最著名的历史建筑之一，全长超过2万公里。",
     question := "中国最著名的历史建筑是什么？",
     answers := [⟨"长城"⟩], id := "zh_1" },
   { context := "孔子是中国历史上著名的哲学家和教育家，被称为至圣先师。",
     question := "谁被称为至圣先师？",
     answers := [⟨"孔子"⟩], id := "zh_2" },
   { context := "长江是中国最长的河流，也是世界第三长的河流。",
     question := "中国最长的河流是什么？",
     answers := [⟨"长江"⟩], id := "zh_3" },
   { context := "故宫位于北京市中心，是明清两代的皇家宫殿。",
     question := "故宫位于哪里？",
     answers := [⟨"北京市中心"⟩], id := "zh_4" },
   { context := "中国的国庆节是每年的10月1日。",
     question := "中国的国庆节是哪一天？",
     answers := [⟨"10月1日"⟩], id := "zh_5" },
   { context := "四大发明是中国古代对世界文明的重要贡献，包括造纸术、印刷术、指南针和火药。",
     question := "四大发明包括什么？",
     answers := [⟨"造纸术、印刷术、指南针和火药"⟩], id := "zh_6" },
   { context := "兵马俑被认为是秦始皇陵的陪葬品，是世界八大奇迹之一。",
     question := "兵马俑属于哪个历史人物的陪葬品？",
     answers := [⟨"秦始皇"⟩], id := "zh_7" },
   { context := "北京奥运会于2008年在中国举行，是一场盛大的国际体育盛会。",
     question := "2008年奥运会在哪个国家举行？",
     answers := [⟨"中国"⟩], id := "zh_8" },
   { context := "熊猫是中国的国宝，主要栖息在四川、陕西和甘肃的山区。",
     question := "熊猫主要栖息在哪里？",
     answers := [⟨"四川、陕西和甘肃"⟩], id := "zh_9" },
   { context := "张艺谋是一位著名的中国导演，他执导了许多经典的电影。",
     question := "谁是著名的中国导演，执导了许多经典的电影？",
     answers := [⟨"张艺谋"⟩], id := "zh_10" }]

/-- The `'tr'` fixture records (lines 533–594). -/
def sample_tr : List QARecord :=
  [{ context := "Ankara, Türkiye\x27nin başkenti ve ikinci en kalabalık şehridir.",
     question := "Türkiye\x27nin başkenti neresidir?",
     answers := [⟨"Ankara"⟩], id := "tr_1" },
   { context := "Türkiye\x27nin en uzun nehri olan Kızılırmak, 1,355 kilometre uzunluğundadır.",
     question := "Türkiye\x27nin en uzun nehri hangisidir?",
     answers := [⟨"Kızılırmak"⟩], id := "tr_2" },
   { context := "Atatürk, Türkiye Cumhuriyeti\x27nin kurucusudur ve ilk cumhurbaşkanıdır.",
     question := "Türkiye Cumhuriyeti\x27ni kim kurmuştur?",
     answers := [⟨"Atatürk"⟩], id := "tr_3" },
   { context := "Pamukkale, travertenleri ve termal sularıyla ünlü bir doğa harikasıdır.",
     question := "Pamukkale neden ünlüdür?",
     answers := [⟨"travertenleri ve termal sularıyla"⟩], id := "tr_4" },
   { context := "Türkiye\x27nin en büyük gölü olan Van Gölü, Doğu Anadolu Bölgesi\x27nde bulunur.",
     question := "Türkiye\x27nin en büyük gölü hangisidir?",
     answers := [⟨"Van Gölü"⟩], id := "tr_5" },
   { context := "İstanbul Boğazı, Asya ve Avrupa kıtalarını birbirine bağlar.",
     question := "Asya ve Avrupa kıtalarını hangi boğaz birleştirir?",
     answers := [⟨"İstanbul Boğazı"⟩], id := "tr_6" },
   { context := "Kapadokya, peri bacaları ve balon turlarıyla dünya çapında ünlüdür.",
     question := "Kapadokya neden ünlüdür?",
     answers := [⟨"peri bacaları ve balon turlarıyla"⟩], id := "tr_7" },
   { context := "Efes Antik Kenti, UNESCO Dünya Mirası Listesi\x27nde yer alır ve Türkiye\x27nin önemli bir turistik alanıdır.",
     question := "Efes Antik Kenti nerede listelenmiştir?",
     answers := [⟨"UNESCO Dünya Mirası Listesi"⟩], id := "tr_8" },
   { context := "Nemrut Dağı, devasa heykelleri ve tarihi kalıntılarıyla ünlüdür.",
     question := "Nemrut Dağı neden ünlüdür?",
     answers := [⟨"devasa heykelleri ve tarihi kalıntılarıyla"⟩], id := "tr_9" },
   { context := "Mevlana, Konya\x27da yaşamış bir mutasavvıf ve Mevlevilik tarikatının kurucusudur.",
     question := "Mevlana kimdir?",
     answers := [⟨"mutasavvıf ve Mevlevilik tarikatının kurucusu"⟩], id := "tr_10" }]

/-- The fixture `create_sample_data` (lines 129–597), in dictionary insertion
order. -/
def create_sample_data : List (String × List QARecord) :=
  [("en", sample_en), ("es", sample_es), ("ru", sample_ru), ("ar", sample_ar),
   ("de", sample_de), ("zh", sample_zh), ("tr", sample_tr)]

/-- The injection of a well-typed fixture record into the dynamically
typed record shape the loader works with: the Python fixture literals are
exactly dicts of strings with `answers` a list of `{'text': ...}` dicts. -/
def QARecord.toPy (r : QARecord) : PyRecord :=
  { context := .str r.context
    question := .str r.question
    answers := .arr (r.answers.map (fun a => .obj [("text", .str a.text)]))
    id := .str r.id }

/-- The fixture `create_sample_data` as a loader-level value (the loader returns the
fixture dictionary itself at lines 96 and 125). -/
def create_sample_data_py : List (String × LoadVal) :=
  create_sample_data.map (fun p => (p.1, .recs (p.2.map QARecord.toPy)))

/-- The method `load_xquad_multilingual` (lines 89–127).  `basePathExists` models
`base_path.exists()` and `hasXquadFile` models
`any(base_path.glob("xquad*"))` (line 94); when either fails, or when the
per-language loop produces an empty dictionary (line 123), the fixture
dataset is returned instead. -/
def load_xquad_multilingual (basePathExists hasXquadFile : Bool)
    (file : String → FileOutcome) : List (String × LoadVal) :=
  if !basePathExists || !hasXquadFile then create_sample_data_py
  else
    let d := loadLoop file supported_languages
    if d.isEmpty then create_sample_data_py else d

/-- The function `main` (lines 675–717).  The data-loading step (line 683) never raises
(`load_xquad_multilingual` returns the fixture instead), and its result is
first consumed after the classifier check inside
`perform_cross_lingual_classification`; the records it yields under the
flows considered here are well formed, so the loaded dataset is modelled
as the typed parameter `loaded`.  The `try` raises when the loaded
dataset is empty (line 686) and otherwise runs the evaluation at sample
size 100; the `except` (lines 706–717) prints the error, substitutes
`create_sample_data()` and reruns at sample size 2 with no further
handler around it. -/
def mainRun (pl : PipelineOracle) (loaded : List (String × List QARecord)) : MainResult :=
  let inst0 := mkInstance default_model_name none
  let firstTry : Instance × Except String (List (String × EvalResult)) :=
    if loaded.isEmpty then
      (inst0, .error "No data was loaded. Please check your data directory and file names.")
    else
      perform_cross_lingual_classification pl inst0 loaded "en" main_target_langs 100
  match firstTry with
  | (_, .ok r) => { usedSampleFallback := false, outcome := .ok r }
  | (inst1, .error _) =>
    { usedSampleFallback := true
      outcome :=
        (perform_cross_lingual_classification pl inst1 create_sample_data "en"
          main_target_langs 2).2 }

/-! ## Concrete inputs used by counterexamples and witnesses -/

/-- A record whose single answer is the digit string `1492`. -/
def rec1492 : QARecord :=
  { context := "c", question := "q", answers := [⟨"1492"⟩], id := "i" }

/-- A stub classifier that always ranks `person` first. -/
def stubClassifier : Classifier := fun _ _ => some "person"

/-- A pipeline oracle whose every load succeeds. -/
def okOracle : PipelineOracle := fun _ => .ok stubClassifier

/-- A pipeline oracle whose every load fails. -/
def failingOracle : PipelineOracle := fun _ => .error "model load failed"

/-- An instance whose classifier is already loaded (so
`perform_cross_lingual_classification` skips `load_model`). -/
def loadedInstance : Instance :=
  { model_name := default_model_name
    models_to_use := available_models.map Prod.snd
    classifier := some stubClassifier }

/-- A filesystem where `xquad-en.json` parses to `{"data": 3}` — valid
JSON whose nested structure cannot be flattened — and every other
language's file is absent. -/
def malformedDataFile : String → FileOutcome :=
  fun l => if l = "en" then .parsed (.obj [("data", .num 3)]) else .missing

/-- A filesystem where `xquad-en.json` parses to `{"data": []}` and every
other language's file raises inside `json.load`. -/
def mixedFailureFile : String → FileOutcome :=
  fun l => if l = "en" then .parsed (.obj [("data", .arr [])]) else .badJson "Expecting value"

/-! ## Well-formed nested inputs (the claim-C9 round-trip shape) -/

/-- A well-formed question/answer group
`{"question": ..., "answers": [...], "id": ...}`. -/
structure WfQa where
  question : Json
  answers : List Json
  qid : Json

/-- A well-formed paragraph `{"context": ..., "qas": [...]}`. -/
structure WfParagraph where
  context : Json
  qas : List WfQa

/-- A well-formed article `{"paragraphs": [...]}`. -/
structure WfArticle where
  paragraphs : List WfParagraph

/-- The JSON value of one well-formed qa group. -/
def WfQa.toJson (q : WfQa) : Json :=
  .obj [("question", q.question), ("answers", .arr q.answers), ("id", q.qid)]

/-- The JSON value of one well-formed paragraph. -/
def WfParagraph.toJson (p : WfParagraph) : Json :=
  .obj [("context", p.context), ("qas", .arr (p.qas.map WfQa.toJson))]

/-- The JSON value of one well-formed article. -/
def WfArticle.toJson (a : WfArticle) : Json :=
  .obj [("paragraphs", .arr (a.paragraphs.map WfParagraph.toJson))]

/-- The well-formed nested file content `{"data": [...]}`. -/
def mkNestedDataset (arts : List WfArticle) : Json :=
  .obj [("data", .arr (arts.map WfArticle.toJson))]

/-- The record flattening the round-trip claim expects: one record per qa
group, in nesting order, carrying the paragraph's context and the group's
question, answers and id unchanged. -/
def flattenWf (arts : List WfArticle) : List PyRecord :=
  arts.flatMap fun a => a.paragraphs.flatMap fun p =>
    p.qas.map fun q =>
      { context := p.context, question := q.question,
        answers := .arr q.answers, id := q.qid }

/-! # Theorems -/

/-- Helper: the keyword heuristic only ever produces one of the six fixed
categories. -/
theorem deriveLabel_mem_sixCategories (s : String) : deriveLabel s ∈ sixCategories := by
  unfold deriveLabel
  repeat' split
  all_goals simp [sixCategories]

/-- C1: code-bug exhibit.  On a well-formed input (one prediction, one
record with a nonempty answers list) `_evaluate_predictions` returns the
degraded error dictionary — `NameError` on `precision_score`, which line
11 never imports — not the metrics dictionary the claim describes. -/
theorem c1_evaluate_returns_degraded_not_metrics :
    evaluate_predictions ["description"]
        [{ context := "The quick brown fox jumps over the lazy dog.",
           question := "What animal jumps over the dog?",
           answers := [⟨"fox"⟩], id := "en_1" }] =
      .degraded nameErrorMsg ["description"] ["unknown"] := rfl

/-- C2: the pseudo label of a QA record is a pure function of the first
answer text (the literal `unknown` when the answers list is empty),
computed by the ordered first-match-wins keyword rules embodied in
`deriveLabel`, and its output always lies in the six-element category
set. -/
theorem c2_pseudo_label_pure_closed_set (item : QARecord) :
    (item.answers = [] → firstAnswerText item = "unknown") ∧
    (∀ a rest, item.answers = a :: rest → firstAnswerText item = a.text) ∧
    (∀ item2 : QARecord, firstAnswerText item2 = firstAnswerText item →
      deriveLabel (firstAnswerText item2) = deriveLabel (firstAnswerText item)) ∧
    deriveLabel (firstAnswerText item) ∈ sixCategories := by
  refine ⟨?_, ?_, ?_, deriveLabel_mem_sixCategories _⟩
  · intro h; simp [firstAnswerText, h]
  · intro a rest h; simp [firstAnswerText, h]
  · intro item2 h; rw [h]

/-- Witness for C2 at a concrete record whose answer text is `1492`. -/
theorem c2_pseudo_label_pure_closed_set_witness :
    (rec1492.answers = [] → firstAnswerText rec1492 = "unknown") ∧
    (∀ a rest, rec1492.answers = a :: rest → firstAnswerText rec1492 = a.text) ∧
    (∀ item2 : QARecord, firstAnswerText item2 = firstAnswerText rec1492 →
      deriveLabel (firstAnswerText item2) = deriveLabel (firstAnswerText rec1492)) ∧
    deriveLabel (firstAnswerText rec1492) ∈ sixCategories :=
  c2_pseudo_label_pure_closed_set rec1492

/-- C4: `_evaluate_predictions` never raises: for every input it returns
the degraded result with an error message, the original predictions
unchanged, and the literal string `unknown` repeated to the length of the
predictions. -/
theorem c4_evaluate_never_raises (predictions : List String) (data : List QARecord) :
    evaluate_predictions predictions data =
      .degraded nameErrorMsg predictions (List.replicate predictions.length "unknown") := rfl

/-- C8: with the classifier loaded, a dataset lacking the source-language
key makes `perform_cross_lingual_classification` fail with the
`ValueError` whose message names the missing source language and lists
the available languages, and no results mapping is produced. -/
theorem c8_missing_source_language_error (pl : PipelineOracle) (inst : Instance)
    (clf : Classifier) (data : List (String × List QARecord)) (source_lang : String)
    (target_langs : List String) (sample_size : Nat)
    (hclf : inst.classifier = some clf)
    (hmiss : data.lookup source_lang = none) :
    (perform_cross_lingual_classification pl inst data source_lang target_langs
        sample_size).2 =
      .error (sourceMissingMsg source_lang (data.map Prod.fst)) := by
  simp [perform_cross_lingual_classification, hclf, perform_body, hmiss]

/-- Witness for C8: source language `fr` against a dataset holding only
`en`. -/
theorem c8_missing_source_language_error_witness :
    (loadedInstance.classifier = some stubClassifier ∧
      ([("en", sample_en)] : List (String × List QARecord)).lookup "fr" = none) ∧
    (perform_cross_lingual_classification okOracle loadedInstance [("en", sample_en)]
        "fr" ["es"] 10).2 =
      .error (sourceMissingMsg "fr" (([("en", sample_en)] :
        List (String × List QARecord)).map Prod.fst)) :=
  ⟨⟨rfl, rfl⟩,
    c8_missing_source_language_error okOracle loadedInstance stubClassifier
      [("en", sample_en)] "fr" ["es"] 10 rfl rfl⟩

/-- C10: `model_name` never influences observable behaviour when the
`models` argument is defaulted: two instances differing only in
`model_name` have the same `models_to_use`, `load_model` behaves
identically on them, and every classification-and-evaluation run returns
the same results and the same classifier state. -/
theorem c10_model_name_noninterference (n1 n2 : String) (pl : PipelineOracle)
    (data : List (String × List QARecord)) (source_lang : String)
    (target_langs : List String) (sample_size : Nat) :
    (mkInstance n1 none).models_to_use = (mkInstance n2 none).models_to_use ∧
    load_model pl (mkInstance n1 none).classifier (mkInstance n1 none).models_to_use =
      load_model pl (mkInstance n2 none).classifier (mkInstance n2 none).models_to_use ∧
    (perform_cross_lingual_classification pl (mkInstance n1 none) data source_lang
        target_langs sample_size).2 =
      (perform_cross_lingual_classification pl (mkInstance n2 none) data source_lang
        target_langs sample_size).2 ∧
    (perform_cross_lingual_classification pl (mkInstance n1 none) data source_lang
        target_langs sample_size).1.classifier =
      (perform_cross_lingual_classification pl (mkInstance n2 none) data source_lang
        target_langs sample_size).1.classifier :=
  ⟨rfl, rfl, rfl, rfl⟩

/-- Helper: one per-language evaluation step yields prediction and
ground-truth sequences both of length `min sample_size records.length`. -/
theorem process_language_lengths (clf : Classifier) (records : List QARecord) (sz : Nat) :
    (process_language clf records sz).predictionsOf.length = min sz records.length ∧
    (process_language clf records sz).groundTruthOf.length = min sz records.length := by
  simp [process_language, evaluate_predictions, classify_batch,
    EvalResult.predictionsOf, EvalResult.groundTruthOf]

/-- C3: when every language of the dataset that gets processed is
non-empty and `sample_size ≥ 1`, the results mapping exists and each of
its entries carries `predictions` and `ground_truth` of equal, nonzero
length bounded by `min sample_size (records for that language)`. -/
theorem c3_results_length_invariant (pl : PipelineOracle) (inst : Instance)
    (clf : Classifier) (data : List (String × List QARecord)) (source_lang : String)
    (target_langs : List String) (sample_size : Nat) (source_records : List QARecord)
    (hclf : inst.classifier = some clf)
    (hsrc : data.lookup source_lang = some source_records)
    (hsrcne : source_records ≠ [])
    (hsz : 1 ≤ sample_size)
    (htgt : ∀ t ∈ target_langs, ∀ recs, data.lookup t = some recs → recs ≠ []) :
    ∃ results,
      (perform_cross_lingual_classification pl inst data source_lang target_langs
          sample_size).2 = .ok results ∧
      ∀ p ∈ results, ∃ recs, data.lookup p.1 = some recs ∧
        p.2.predictionsOf.length = p.2.groundTruthOf.length ∧
        0 < p.2.predictionsOf.length ∧
        p.2.predictionsOf.length ≤ min sample_size recs.length := by
  have hres : (perform_cross_lingual_classification pl inst data source_lang target_langs
      sample_size).2 =
      .ok ((source_lang, process_language clf source_records sample_size) ::
        target_langs.filterMap fun tl =>
          match data.lookup tl with
          | some recs => some (tl, process_language clf recs sample_size)
          | none => none) := by
    simp [perform_cross_lingual_classification, hclf, perform_body, hsrc]
  refine ⟨_, hres, ?_⟩
  have hentry : ∀ (recs : List QARecord), recs ≠ [] →
      (process_language clf recs sample_size).predictionsOf.length =
        (process_language clf recs sample_size).groundTruthOf.length ∧
      0 < (process_language clf recs sample_size).predictionsOf.length ∧
      (process_language clf recs sample_size).predictionsOf.length ≤
        min sample_size recs.length := by
    intro recs hne
    obtain ⟨h1, h2⟩ := process_language_lengths clf recs sample_size
    refine ⟨h1.trans h2.symm, ?_, le_of_eq h1⟩
    rw [h1]
    exact lt_min hsz (List.length_pos.2 hne)
  intro p hp
  rcases List.mem_cons.1 hp with hphead | hptail
  · subst hphead
    exact ⟨source_records, hsrc, hentry source_records hsrcne⟩
  · rcases List.mem_filterMap.1 hptail with ⟨t, ht, hmt⟩
    rcases hl : data.lookup t with _ | recs
    · rw [hl] at hmt; simp at hmt
    · rw [hl] at hmt
      simp only [Option.some.injEq] at hmt
      subst hmt
      exact ⟨recs, hl, hentry recs (htgt t ht recs hl)⟩

/-- Witness for C3 at a two-language dataset with one record each,
sample size 2, and targets `["es"]`. -/
theorem c3_results_length_invariant_witness :
    (loadedInstance.classifier = some stubClassifier ∧
      ([("en", [rec1492]), ("es", [rec1492])] :
        List (String × List QARecord)).lookup "en" = some [rec1492] ∧
      [rec1492] ≠ ([] : List QARecord) ∧ 1 ≤ 2) ∧
    ∃ results,
      (perform_cross_lingual_classification okOracle loadedInstance
          [("en", [rec1492]), ("es", [rec1492])] "en" ["es"] 2).2 = .ok results ∧
      ∀ p ∈ results, ∃ recs,
        ([("en", [rec1492]), ("es", [rec1492])] :
          List (String × List QARecord)).lookup p.1 = some recs ∧
        p.2.predictionsOf.length = p.2.groundTruthOf.length ∧
        0 < p.2.predictionsOf.length ∧
        p.2.predictionsOf.length ≤ min 2 recs.length :=
  ⟨⟨rfl, rfl, by simp, by omega⟩,
    c3_results_length_invariant okOracle loadedInstance stubClassifier
      [("en", [rec1492]), ("es", [rec1492])] "en" ["es"] 2 [rec1492] rfl rfl
      (by simp) (by omega)
      (by
        intro t ht recs h
        fin_cases ht
        simp [List.lookup] at h
        subst h
        simp)⟩

/-- Helper: the per-language loop stores exactly the languages whose file
parsed, each mapped to the flattening of its own file — so languages are
loaded independently of one another. -/
theorem lookup_loadLoop (file : String → FileOutcome) (l : String)
    (langs : List String) :
    (loadLoop file langs).lookup l =
      if l ∈ langs then
        match file l with
        | .parsed j => some (process_xquad_data j)
        | _ => none
      else none := by
  induction langs with
  | nil => simp [loadLoop]
  | cons lang rest ih =>
    by_cases hl : l = lang
    · subst hl
      cases hf : file l with
      | parsed j => simp [loadLoop, hf, List.lookup]
      | missing => simp [loadLoop, hf, ih]
      | badJson e => simp [loadLoop, hf, ih]
    · have hbeq : (l == lang) = false := beq_eq_false_iff_ne.2 hl
      cases hf : file lang with
      | parsed j =>
        simp only [loadLoop, hf, List.lookup, hbeq]
        rw [ih]
        simp [List.mem_cons, hl]
      | missing =>
        simp only [loadLoop, hf]
        rw [ih]
        simp [List.mem_cons, hl]
      | badJson e =>
        simp only [loadLoop, hf]
        rw [ih]
        simp [List.mem_cons, hl]

/-- C5 counterexample: `{"data": 3}` is malformed content (valid JSON, an
unflattenable nested shape), yet the language is not omitted — it appears
in the mapping with an empty record list. -/
theorem c5_counterexample_malformed_not_omitted :
    (load_xquad_multilingual true true malformedDataFile).lookup "en" =
      some (.recs []) := rfl

/-- C5 as amended: during a load in which some language succeeds, a
language whose file is missing or whose `json.load` raises is omitted
from the mapping, and every language whose file parsed gets exactly the
flattening of its own file — one language's failure never disturbs the
others' entries.  (A file that parses but cannot be flattened instead
yields a present entry with an empty record list.) -/
theorem c5_amended_parse_failures_omitted (file : String → FileOutcome) (lang : String)
    (hfail : file lang = .missing ∨ ∃ e, file lang = .badJson e)
    (hne : loadLoop file supported_languages ≠ []) :
    (load_xquad_multilingual true true file).lookup lang = none ∧
    ∀ l j, file l = .parsed j →
      (load_xquad_multilingual true true file).lookup l =
        if l ∈ supported_languages then some (process_xquad_data j) else none := by
  have hload : load_xquad_multilingual true true file =
      loadLoop file supported_languages := by
    simp only [load_xquad_multilingual, Bool.not_true, Bool.or_self, Bool.false_eq_true,
      if_false]
    rw [if_neg]
    simp [List.isEmpty_iff, hne]
  rw [hload]
  constructor
  · rw [lookup_loadLoop]
    rcases hfail with h | ⟨e, h⟩ <;> simp [h]
  · intro l j hj
    rw [lookup_loadLoop]
    simp [hj]

/-- Witness for C5-as-amended: `es` raises in `json.load` while `en`
parses (to `{"data": []}`). -/
theorem c5_amended_parse_failures_omitted_witness :
    ((mixedFailureFile "es" = .missing ∨ ∃ e, mixedFailureFile "es" = .badJson e) ∧
      loadLoop mixedFailureFile supported_languages ≠ []) ∧
    (load_xquad_multilingual true true mixedFailureFile).lookup "es" = none ∧
    ∀ l j, mixedFailureFile l = .parsed j →
      (load_xquad_multilingual true true mixedFailureFile).lookup l =
        if l ∈ supported_languages then some (process_xquad_data j) else none :=
  ⟨⟨Or.inr ⟨"Expecting value", rfl⟩, fun h => nomatch h⟩,
    c5_amended_parse_failures_omitted mixedFailureFile "es"
      (Or.inr ⟨"Expecting value", rfl⟩) (fun h => nomatch h)⟩

/-- C6 counterexample: with a pipeline oracle whose loads fail, `main`
does run its fixture substitution (the `except` branch at lines 706–717),
contrary to the claim that capability-load errors trigger no automatic
fixture substitution. -/
theorem c6_counterexample_fixture_substitution_triggered :
    (mainRun failingOracle [("en", sample_en)]).usedSampleFallback = true := rfl

/-- C6 as amended: a `load_model` failure propagates out of
`perform_cross_lingual_classification` to `main`, whose catch-all handler
does substitute the built-in fixture dataset and retry; because the retry
reloads and fails again (no classifier was stored when the first model
path fails), the load error then propagates uncaught out of `main`. -/
theorem c6_amended_load_error_propagates_after_substitution (pl : PipelineOracle)
    (e : String) (loaded : List (String × List QARecord))
    (hfail : pl default_model_name = .error e) :
    mainRun pl loaded = { usedSampleFallback := true, outcome := .error e } := by
  have hlm : load_model pl none (available_models.map Prod.snd) = (none, e) := by
    show load_model pl none (default_model_name ::
      ["emrecan/bert-base-multilingual-cased-snli_tr", "xlm-roberta-large",
       "microsoft/infoxlm-large", "facebook/bart-large-mnli"]) = (none, e)
    simp [load_model, hfail]
  have hperf : ∀ (i : Instance), i.classifier = none →
      i.models_to_use = available_models.map Prod.snd →
      ∀ (d : List (String × List QARecord)) (sz : Nat),
        perform_cross_lingual_classification pl i d "en" main_target_langs sz =
          ({ i with classifier := none }, .error e) := by
    intro i hc hm d sz
    simp [perform_cross_lingual_classification, hc, hm, hlm]
  unfold mainRun
  by_cases hemp : loaded.isEmpty
  · simp only [hemp, if_true]
    exact congrArg
      (fun o : Instance × Except String (List (String × EvalResult)) =>
        ({ usedSampleFallback := true, outcome := o.2 } : MainResult))
      (hperf (mkInstance default_model_name none) rfl rfl create_sample_data 2)
  · simp only [hemp, Bool.false_eq_true, if_false]
    rw [hperf (mkInstance default_model_name none) rfl rfl loaded 100]
    exact congrArg
      (fun o : Instance × Except String (List (String × EvalResult)) =>
        ({ usedSampleFallback := true, outcome := o.2 } : MainResult))
      (hperf { mkInstance default_model_name none with classifier := none } rfl rfl
        create_sample_data 2)

/-- Witness for C6-as-amended at the failing oracle and a one-language
dataset. -/
theorem c6_amended_witness :
    failingOracle default_model_name = .error "model load failed" ∧
    mainRun failingOracle [("en", sample_en)] =
      { usedSampleFallback := true, outcome := .error "model load failed" } :=
  ⟨rfl,
    c6_amended_load_error_propagates_after_substitution failingOracle
      "model load failed" [("en", sample_en)] rfl⟩

/-- C7 counterexample: in the built-in fixture, every `en` record's answer
derives to `description` — in particular the `person` category is never
exercised for `en`, so the fixture does not exercise all six categories
for every fixture language. -/
theorem c7_counterexample_en_derives_only_description :
    (sample_en.map fun r => deriveLabel (firstAnswerText r)) =
      List.replicate 11 "description" ∧
    "person" ∉ (sample_en.map fun r => deriveLabel (firstAnswerText r)) := by
  have h : (sample_en.map fun r => deriveLabel (firstAnswerText r)) =
      List.replicate 11 "description" := rfl
  refine ⟨h, ?_⟩
  rw [h]
  decide

/-- C7 as amended: a nonexistent base path (or no `xquad*` file, or an
empty load loop) makes the loader return the built-in fixture dataset,
whose every language has a non-empty record list with non-empty answer
lists — but the fixture does not exercise every pseudo-label category for
every language (see the counterexample). -/
theorem c7_amended_fixture_fallback (bpe hg : Bool) (file : String → FileOutcome)
    (hmiss : bpe = false ∨ hg = false) :
    load_xquad_multilingual bpe hg file = create_sample_data_py ∧
    (∀ file2 : String → FileOutcome, loadLoop file2 supported_languages = [] →
      load_xquad_multilingual true true file2 = create_sample_data_py) ∧
    (∀ l rs, (l, rs) ∈ create_sample_data → rs ≠ [] ∧ ∀ r ∈ rs, r.answers ≠ []) := by
  refine ⟨?_, ?_, ?_⟩
  · rcases hmiss with h | h <;> subst h <;> simp [load_xquad_multilingual]
  · intro file2 h
    simp [load_xquad_multilingual, h]
  · intro l rs h
    simp only [create_sample_data, List.mem_cons, List.not_mem_nil, or_false,
      Prod.mk.injEq] at h
    rcases h with ⟨h1, h2⟩ | ⟨h1, h2⟩ | ⟨h1, h2⟩ | ⟨h1, h2⟩ | ⟨h1, h2⟩ | ⟨h1, h2⟩ |
      ⟨h1, h2⟩ <;> subst h2 <;> exact ⟨by decide, by decide⟩

/-- Witness for C7-as-amended with a nonexistent base path. -/
theorem c7_amended_fixture_fallback_witness :
    (false = false ∨ true = false) ∧
    (load_xquad_multilingual false true (fun _ => FileOutcome.missing) =
        create_sample_data_py ∧
      (∀ file2 : String → FileOutcome, loadLoop file2 supported_languages = [] →
        load_xquad_multilingual true true file2 = create_sample_data_py) ∧
      (∀ l rs, (l, rs) ∈ create_sample_data → rs ≠ [] ∧ ∀ r ∈ rs, r.answers ≠ [])) :=
  ⟨Or.inl rfl,
    c7_amended_fixture_fallback false true (fun _ => FileOutcome.missing) (Or.inl rfl)⟩

/-- Helper: flattening the qa groups of one well-formed paragraph. -/
theorem processQas_wf (context : Json) (qas : List WfQa) :
    processQas context (qas.map WfQa.toJson) =
      .ok (qas.map fun q =>
        ({ context := context, question := q.question,
           answers := .arr q.answers, id := q.qid } : PyRecord)) := by
  induction qas with
  | nil => rfl
  | cons q rest ih =>
    simp [processQas, WfQa.toJson, pyGetItem, List.lookup, ih, Bind.bind, Except.bind]

/-- Helper: flattening the paragraphs of one well-formed article. -/
theorem processParagraphs_wf (paras : List WfParagraph) :
    processParagraphs (paras.map WfParagraph.toJson) =
      .ok (paras.flatMap fun p => p.qas.map fun q =>
        ({ context := p.context, question := q.question,
           answers := .arr q.answers, id := q.qid } : PyRecord)) := by
  induction paras with
  | nil => rfl
  | cons p rest ih =>
    simp [processParagraphs, WfParagraph.toJson, pyGetItem, pyIter, List.lookup,
      processQas_wf, ih, Bind.bind, Except.bind]

/-- Helper: flattening a list of well-formed articles. -/
theorem processArticles_wf (arts : List WfArticle) :
    processArticles (arts.map WfArticle.toJson) = .ok (flattenWf arts) := by
  induction arts with
  | nil => rfl
  | cons a rest ih =>
    simp [processArticles, WfArticle.toJson, pyGetItem, pyIter, List.lookup,
      processParagraphs_wf, ih, flattenWf, Bind.bind, Except.bind]

/-- C9: round-trip — flattening any well-formed nested dataset preserves
every qa group's id, context, question and full ordered answers list, one
flattened record per qa group in nesting order. -/
theorem c9_round_trip_preserves_records (arts : List WfArticle) :
    process_xquad_data (mkNestedDataset arts) = .recs (flattenWf arts) := by
  simp [process_xquad_data, mkNestedDataset, pyContains, pyGetItem, pyIter,
    List.lookup, processArticles_wf, Bind.bind, Except.bind, pure, Except.pure]

end CrossLingual
